import Mathlib

/-!
Formal model of src/BoundedBuffer.c: a bounded-buffer producer/consumer
simulation (cashiers and packers around a circular packing area) built on
hand-rolled counting semaphores made of a mutex and one condition
variable.  The C functions are translated into pure state-passing Lean
definitions below, followed by theorems checking the specification's
claims against them.  Line numbers in the comments refer to
src/BoundedBuffer.c.
-/

namespace BoundedBuffer

/-- BUFFER_SIZE (line 27). -/
def BUFFER_SIZE : Nat := 5

/-- NUM_CAJEROS (line 28). -/
def NUM_CAJEROS : Nat := 3

/-- NUM_EMPACADORES (line 29). -/
def NUM_EMPACADORES : Nat := 2

/-- DURACION_SEG (line 30). -/
def DURACION_SEG : Nat := 60

/-- Semaforo (lines 41-45): the counter `value`, its mutex and one
condition variable.  `mtxHeld` is true while the thread currently inside
a semaphore operation holds the mutex (every operation releases it before
returning, so all results carry `mtxHeld = false`), and `waiters` is the
number of threads suspended on the condition variable.  The C struct has
no waiter-count or token program field: `waiters` models the state of the
pthread condition queue itself. -/
structure Semaforo where
  value : Int
  mtxHeld : Bool
  waiters : Nat
  deriving DecidableEq, Repr

/-- sem_wait_manual (lines 79-87), one atomic execution of the wait
operation: pthread_mutex_lock (line 81), decrement of `value` (line 82),
then if the new value is negative the caller suspends on the condition
variable, atomically releasing the mutex (line 84); otherwise it unlocks
and returns (line 86).  Result: the semaphore at the moment the call
returns or suspends, and whether the caller suspended. -/
def sem_wait_manual (s : Semaforo) : Semaforo × Bool :=
  if s.value - 1 < 0 then
    ({ value := s.value - 1, mtxHeld := false, waiters := s.waiters + 1 }, true)
  else
    ({ value := s.value - 1, mtxHeld := false, waiters := s.waiters }, false)

/-- Continuation of sem_wait_manual after pthread_cond_wait returns
(lines 84-86): the woken thread reacquires the mutex inside cond_wait,
immediately unlocks it (line 86) and sem_wait_manual returns.  The code
after cond_wait neither re-tests `value` nor consumes any token, so it is
the same whatever caused the wakeup, and the caller is always admitted
(the returned Bool is whether the call returned to its caller). -/
def sem_wait_return (s : Semaforo) : Semaforo × Bool :=
  ({ value := s.value, mtxHeld := false, waiters := s.waiters }, true)

/-- Platform event, not program code: a spurious wakeup removes one
suspended thread from the condition queue although no sem_signal_manual
was delivered.  POSIX permits this for pthread_cond_wait. -/
def spurious_wakeup (s : Semaforo) : Semaforo :=
  { value := s.value, mtxHeld := s.mtxHeld, waiters := s.waiters - 1 }

/-- sem_signal_manual (lines 104-112): pthread_mutex_lock (line 106),
increment of `value` (line 107), and if the post-increment value is ≤ 0 a
single pthread_cond_signal (line 109) — which wakes one suspended thread
when one exists and is a no-op otherwise — then pthread_mutex_unlock
(line 111).  Result: the new state and the number of threads woken. -/
def sem_signal_manual (s : Semaforo) : Semaforo × Nat :=
  if s.value + 1 ≤ 0 then
    ({ value := s.value + 1, mtxHeld := false, waiters := s.waiters - min 1 s.waiters },
     min 1 s.waiters)
  else
    ({ value := s.value + 1, mtxHeld := false, waiters := s.waiters }, 0)

/-- The value field always rises by exactly one across sem_signal_manual. -/
theorem sem_signal_value (s : Semaforo) :
    (sem_signal_manual s).1.value = s.value + 1 := by
  simp only [sem_signal_manual]
  split <;> rfl

/-- Claim C2: sem_wait_manual decrements `value` by exactly 1, suspends
the caller on the condition variable exactly when the post-decrement
value is negative (the caller joins the condition queue), ends with the
semaphore mutex released (on the immediate-return path it unlocks before
returning; on the blocking path cond_wait releases the mutex atomically
at suspension), returns immediately exactly when the count was
sufficient, and a suspended caller returns only through sem_wait_return
— invoked when a signal admits it — which completes the call. -/
theorem sem_wait_spec (s : Semaforo) :
    (sem_wait_manual s).1.value = s.value - 1
  ∧ (sem_wait_manual s).2 = decide (s.value - 1 < 0)
  ∧ (sem_wait_manual s).1.mtxHeld = false
  ∧ (sem_wait_manual s).1.waiters
      = (if s.value - 1 < 0 then s.waiters + 1 else s.waiters)
  ∧ (sem_wait_return (sem_wait_manual s).1).2 = true := by
  by_cases hc : s.value - 1 < 0 <;>
    simp [sem_wait_manual, sem_wait_return, hc]

/-- Claim C3: sem_signal_manual increments `value` by exactly 1, wakes
exactly one suspended waiter if and only if the post-increment value is
≤ 0, never wakes more than one waiter (no broadcast), releases the mutex,
and removes exactly the woken threads from the condition queue.  The
hypothesis is the semaphore invariant of the specification: a negative
count means at least one thread is suspended. -/
theorem sem_signal_spec (s : Semaforo) (h : s.value < 0 → 1 ≤ s.waiters) :
    (sem_signal_manual s).1.value = s.value + 1
  ∧ (sem_signal_manual s).2 = (if s.value + 1 ≤ 0 then 1 else 0)
  ∧ (sem_signal_manual s).2 ≤ 1
  ∧ (sem_signal_manual s).1.mtxHeld = false
  ∧ (sem_signal_manual s).1.waiters = s.waiters - (sem_signal_manual s).2 := by
  by_cases hc : s.value + 1 ≤ 0
  · have hw : 1 ≤ s.waiters := h (by omega)
    simp [sem_signal_manual, hc]
    omega
  · simp [sem_signal_manual, hc]

/-- Witness for sem_signal_spec: with value −1 and one suspended waiter
the signal wakes exactly one thread. -/
theorem sem_signal_spec_witness :
    ((Semaforo.mk (-1) false 1).value < 0 → 1 ≤ (Semaforo.mk (-1) false 1).waiters)
  ∧ ((sem_signal_manual (Semaforo.mk (-1) false 1)).1.value
        = (Semaforo.mk (-1) false 1).value + 1
     ∧ (sem_signal_manual (Semaforo.mk (-1) false 1)).2
        = (if (Semaforo.mk (-1) false 1).value + 1 ≤ 0 then 1 else 0)
     ∧ (sem_signal_manual (Semaforo.mk (-1) false 1)).2 ≤ 1
     ∧ (sem_signal_manual (Semaforo.mk (-1) false 1)).1.mtxHeld = false
     ∧ (sem_signal_manual (Semaforo.mk (-1) false 1)).1.waiters
        = (Semaforo.mk (-1) false 1).waiters - (sem_signal_manual (Semaforo.mk (-1) false 1)).2) :=
  ⟨by decide, sem_signal_spec (Semaforo.mk (-1) false 1) (by decide)⟩

/-- Claim C4 is false of this code: from the state with value −1 and one
suspended waiter, a spurious wakeup (no signal delivered) lets the waiter
return from sem_wait admitted while value stays −1, and the next
delivered signal then wakes nobody — so one delivered signal admits zero
waiters and a waiter woken without a matching signal was admitted. -/
theorem spurious_wakeup_counterexample :
    (sem_wait_return (spurious_wakeup (Semaforo.mk (-1) false 1))).2 = true
  ∧ (sem_wait_return (spurious_wakeup (Semaforo.mk (-1) false 1))).1.value = -1
  ∧ (sem_signal_manual (sem_wait_return (spurious_wakeup (Semaforo.mk (-1) false 1))).1).2 = 0 := by
  decide

/-- Claim C4 (amended): the implementation has no spurious-wakeup guard.
Semaforo carries only the counter, its mutex and one condition variable —
no dedicated waiter-count or token program field — and the code after
pthread_cond_wait neither re-tests value nor consumes a token, so from
every semaphore state a spuriously woken waiter is admitted: sem_wait
returns with value unchanged, no signal consumed, and one thread fewer on
the condition queue.  The one-signal-admits-one-waiter contract is
preserved only on platforms without spurious wakeups. -/
theorem spurious_wakeup_admits (s : Semaforo) :
    (sem_wait_return (spurious_wakeup s)).2 = true
  ∧ (sem_wait_return (spurious_wakeup s)).1.value = s.value
  ∧ (sem_wait_return (spurious_wakeup s)).1.waiters = s.waiters - 1
  ∧ (sem_wait_return (spurious_wakeup s)).1.mtxHeld = false := by
  simp [sem_wait_return, spurious_wakeup]

/-- Producto (lines 143-146): item name and numeric code. -/
structure Producto where
  nombre : String
  codigo : Int
  deriving DecidableEq, Repr

/-- Zero-initialized Producto: the C globals start zeroed, so every cell
of the array initially holds an empty name and code 0. -/
def productoCero : Producto := { nombre := "", codigo := 0 }

/-- The shared buffer globals (lines 149-153): the circular array
area_empaque, the insert index, the extract index, and the two running
totals. -/
structure BufferState where
  area_empaque : List Producto
  indice_in : Nat
  indice_out : Nat
  total_producidos : Nat
  total_consumidos : Nat
  deriving DecidableEq, Repr

/-- The initial global state (lines 149-153): zeroed array, indices and
counters all 0. -/
def initState : BufferState :=
  { area_empaque := List.replicate BUFFER_SIZE productoCero
    indice_in := 0
    indice_out := 0
    total_producidos := 0
    total_consumidos := 0 }

/-- buffer_ocupados (lines 205-208): computes
(indice_in - indice_out + BUFFER_SIZE) % BUFFER_SIZE in C int
arithmetic, here over ℤ. -/
def buffer_ocupados (b : BufferState) : Int :=
  ((b.indice_in : Int) - (b.indice_out : Int) + (BUFFER_SIZE : Int)) % (BUFFER_SIZE : Int)

/-- The producer's critical-section mutation (cajero, lines 261-263):
write the product at indice_in, advance indice_in circularly, increment
total_producidos. -/
def enqueue (b : BufferState) (p : Producto) : BufferState :=
  { area_empaque := b.area_empaque.set b.indice_in p
    indice_in := (b.indice_in + 1) % BUFFER_SIZE
    indice_out := b.indice_out
    total_producidos := b.total_producidos + 1
    total_consumidos := b.total_consumidos }

/-- The consumer's critical-section mutation (empacador, lines 322-324):
read the product at indice_out, advance indice_out circularly, increment
total_consumidos. -/
def dequeue (b : BufferState) : Producto × BufferState :=
  (b.area_empaque.getD b.indice_out productoCero,
   { area_empaque := b.area_empaque
     indice_in := b.indice_in
     indice_out := (b.indice_out + 1) % BUFFER_SIZE
     total_producidos := b.total_producidos
     total_consumidos := b.total_consumidos + 1 })

/-- One synchronized buffer operation, observed outside the critical
section.  A producer enqueues only after sem_empty admitted it, which the
counting discipline allows exactly while fewer than BUFFER_SIZE items are
outstanding; a consumer dequeues only after sem_full admitted it, i.e.
while at least one item is outstanding. -/
inductive Step : BufferState → BufferState → Prop
  | enq (b : BufferState) (p : Producto)
      (hg : b.total_producidos - b.total_consumidos < BUFFER_SIZE) :
      Step b (enqueue b p)
  | deq (b : BufferState)
      (hg : b.total_consumidos < b.total_producidos) :
      Step b (dequeue b).2

/-- States reachable from the initial globals by synchronized enqueue
and dequeue operations. -/
inductive Reachable : BufferState → Prop
  | init : Reachable initState
  | step {b c : BufferState} : Reachable b → Step b c → Reachable c

/-- Structural invariant of every reachable state: the indices track the
counters modulo BUFFER_SIZE, consumption never exceeds production, and at
most BUFFER_SIZE items are outstanding. -/
theorem reachable_inv (b : BufferState) (h : Reachable b) :
    b.indice_in = b.total_producidos % BUFFER_SIZE
  ∧ b.indice_out = b.total_consumidos % BUFFER_SIZE
  ∧ b.total_consumidos ≤ b.total_producidos
  ∧ b.total_producidos ≤ b.total_consumidos + BUFFER_SIZE := by
  induction h with
  | init => exact ⟨rfl, rfl, Nat.le_refl 0, by simp [initState, BUFFER_SIZE]⟩
  | step hr hs ih =>
      cases hs with
      | enq p hg =>
          obtain ⟨h1, h2, h3, h4⟩ := ih
          simp only [enqueue, BUFFER_SIZE] at *
          omega
      | deq hg =>
          obtain ⟨h1, h2, h3, h4⟩ := ih
          simp only [dequeue, BUFFER_SIZE] at *
          omega

/-- A concrete product a producer can construct (cajero lines 245-249). -/
def productoLeche : Producto := { nombre := "Leche", codigo := 1234 }

/-- The state after five synchronized enqueues and no dequeue: the
buffer holds BUFFER_SIZE items and indice_in has wrapped back to
indice_out. -/
def fullState : BufferState :=
  enqueue (enqueue (enqueue (enqueue (enqueue initState productoLeche)
    productoLeche) productoLeche) productoLeche) productoLeche

/-- The full buffer is reachable: sem_empty starts at BUFFER_SIZE, so
five producers may enqueue before any consumer dequeues. -/
theorem fullState_reachable : Reachable fullState :=
  Reachable.step
    (Reachable.step
      (Reachable.step
        (Reachable.step
          (Reachable.step Reachable.init
            (Step.enq initState productoLeche (by decide)))
          (Step.enq (enqueue initState productoLeche) productoLeche (by decide)))
        (Step.enq (enqueue (enqueue initState productoLeche) productoLeche)
          productoLeche (by decide)))
      (Step.enq (enqueue (enqueue (enqueue initState productoLeche) productoLeche)
        productoLeche) productoLeche (by decide)))
    (Step.enq (enqueue (enqueue (enqueue (enqueue initState productoLeche)
      productoLeche) productoLeche) productoLeche) productoLeche (by decide))

/-- Claim C1 is false as stated: the full buffer is reachable, and there
total_producidos − total_consumidos = 5 while buffer_ocupados returns 0. -/
theorem conservation_counterexample :
    Reachable fullState
  ∧ fullState.total_producidos = 5
  ∧ fullState.total_consumidos = 0
  ∧ buffer_ocupados fullState = 0
  ∧ buffer_ocupados fullState
      ≠ (fullState.total_producidos : Int) - (fullState.total_consumidos : Int) :=
  ⟨fullState_reachable, by decide, by decide, by decide, by decide⟩

/-- Claim C1 (amended): in every reachable state, observed outside the
buffer critical section, buffer_ocupados returns produced − consumed
reduced modulo BUFFER_SIZE; it equals produced − consumed itself in every
state except the full buffer (produced − consumed = BUFFER_SIZE), where
it returns 0. -/
theorem conservation_except_full (b : BufferState) (h : Reachable b) :
    buffer_ocupados b
      = ((b.total_producidos : Int) - (b.total_consumidos : Int)) % (BUFFER_SIZE : Int)
  ∧ (buffer_ocupados b = (b.total_producidos : Int) - (b.total_consumidos : Int)
      ∨ (b.total_producidos : Int) - (b.total_consumidos : Int) = (BUFFER_SIZE : Int)) := by
  obtain ⟨h1, h2, h3, h4⟩ := reachable_inv b h
  simp only [buffer_ocupados, BUFFER_SIZE] at *
  rw [h1, h2]
  constructor
  · omega
  · omega

/-- Witness for conservation_except_full at the initial state. -/
theorem conservation_except_full_witness :
    Reachable initState
  ∧ (buffer_ocupados initState
      = ((initState.total_producidos : Int) - (initState.total_consumidos : Int))
          % (BUFFER_SIZE : Int)
     ∧ (buffer_ocupados initState
          = (initState.total_producidos : Int) - (initState.total_consumidos : Int)
        ∨ (initState.total_producidos : Int) - (initState.total_consumidos : Int)
          = (BUFFER_SIZE : Int))) :=
  ⟨Reachable.init, conservation_except_full initState Reachable.init⟩

/-- Claim C10: for all insert/extract indices the formula of
buffer_ocupados lies in [0, BUFFER_SIZE − 1] and never reaches
BUFFER_SIZE; it returns 0 whenever the two indices coincide, which
happens both in the empty buffer and in the reachable full buffer
(fullState, where produced − consumed = BUFFER_SIZE), so a full buffer is
reported — and logged — as occupancy 0 rather than capacity. -/
theorem buffer_ocupados_range (i o : Nat) :
    0 ≤ buffer_ocupados { initState with indice_in := i, indice_out := o }
  ∧ buffer_ocupados { initState with indice_in := i, indice_out := o }
      ≤ (BUFFER_SIZE : Int) - 1
  ∧ buffer_ocupados { initState with indice_in := i, indice_out := o }
      ≠ (BUFFER_SIZE : Int)
  ∧ buffer_ocupados { initState with indice_in := i, indice_out := i } = 0
  ∧ Reachable fullState
  ∧ fullState.total_producidos = fullState.total_consumidos + BUFFER_SIZE
  ∧ buffer_ocupados fullState = 0 := by
  refine ⟨?_, ?_, ?_, ?_, fullState_reachable, by decide, by decide⟩ <;>
    · simp only [buffer_ocupados, BUFFER_SIZE]
      omega

/-- The locks a producer thread can hold: the shared buffer mutex
(line 164) and the internal mutexes of sem_empty and sem_full. -/
structure Locks where
  bufMutex : Bool
  emptyMutex : Bool
  fullMutex : Bool
  deriving DecidableEq, Repr

/-- The observable actions of one producer iteration (cajero loop body,
lines 252-276). -/
inductive PEvent where
  | waitEmpty
  | signalEmpty
  | lockBuf
  | writeBuf
  | logEvento (n : Nat)
  | unlockBuf
  | signalFull
  | exitLoop
  deriving DecidableEq, Repr

/-- Lock effect of one event.  sem_wait_manual and sem_signal_manual
acquire and release their own mutex internally and finish with it free
(sem_wait_spec, sem_signal_spec), so at event granularity they leave the
lock set unchanged; only the explicit pthread_mutex_lock and
pthread_mutex_unlock on the buffer mutex (lines 258 and 269) change it. -/
def stepLocks (l : Locks) : PEvent → Locks
  | PEvent.lockBuf => { l with bufMutex := true }
  | PEvent.unlockBuf => { l with bufMutex := false }
  | _ => l

/-- Locks held after executing a list of events, starting from none. -/
def locksAfter (es : List PEvent) : Locks :=
  es.foldl stepLocks { bufMutex := false, emptyMutex := false, fullMutex := false }

/-- One producer iteration after the product is built (lines 252-276):
wait on sem_empty (line 252); on stop, return the slot and leave
(line 255); otherwise lock the buffer mutex (line 258), write and take
the occupancy snapshot (lines 261-264), first log_evento call (line 266),
unlock (line 269), second log_evento call (line 272), and signal sem_full
(line 276). -/
def cajero_iter (activa : Bool) : List PEvent :=
  PEvent.waitEmpty ::
    (if activa then
      [PEvent.lockBuf, PEvent.writeBuf, PEvent.logEvento 1, PEvent.unlockBuf,
       PEvent.logEvento 2, PEvent.signalFull]
    else
      [PEvent.signalEmpty, PEvent.exitLoop])

/-- Claim C5 is false: in a normal producer iteration the first
log_evento call (line 266) executes while the buffer mutex is held — it
is the event at position 3, and after the events before it (waitEmpty,
lockBuf, writeBuf) the buffer mutex is locked. -/
theorem cajero_log_counterexample :
    (cajero_iter true).getD 3 PEvent.exitLoop = PEvent.logEvento 1
  ∧ locksAfter ((cajero_iter true).take 3)
      = { bufMutex := true, emptyMutex := false, fullMutex := false } := by
  decide

/-- Claim C5 (amended): in every producer iteration the first log_evento
call runs while the buffer mutex is held (both semaphore mutexes free),
and the second log_evento call runs with the buffer mutex and both
semaphore mutexes released. -/
theorem cajero_log_locks :
    (cajero_iter true).getD 3 PEvent.exitLoop = PEvent.logEvento 1
  ∧ locksAfter ((cajero_iter true).take 3)
      = { bufMutex := true, emptyMutex := false, fullMutex := false }
  ∧ (cajero_iter true).getD 5 PEvent.exitLoop = PEvent.logEvento 2
  ∧ locksAfter ((cajero_iter true).take 5)
      = { bufMutex := false, emptyMutex := false, fullMutex := false } := by
  decide

/-- The observable actions of the temporizador thread (lines 363-377). -/
inductive TEvent where
  | sleepSecs (n : Nat)
  | setFlag (b : Bool)
  | signalFull
  | signalEmpty
  deriving DecidableEq, Repr

/-- The signal burst of the temporizador loop (lines 372-375): n
iterations, each issuing sem_signal_manual on sem_full and then on
sem_empty. -/
def signal_burst : Nat → List TEvent
  | 0 => []
  | n + 1 => TEvent.signalFull :: TEvent.signalEmpty :: signal_burst n

/-- temporizador (lines 363-377): sleep DURACION_SEG seconds (line 366),
store 0 into simulacion_activa (line 367), then the signal burst of
NUM_CAJEROS + NUM_EMPACADORES full/empty pairs (lines 372-375). -/
def temporizador_run : List TEvent :=
  TEvent.sleepSecs DURACION_SEG :: TEvent.setFlag false ::
    signal_burst (NUM_CAJEROS + NUM_EMPACADORES)

/-- Claim C6: after sleeping for the configured duration the
temporizador first stores false into the stop flag and then issues
exactly NUM_CAJEROS + NUM_EMPACADORES pairs of full.signal and
empty.signal, one pair per potentially blocked worker, in that order. -/
theorem temporizador_spec :
    temporizador_run
      = [TEvent.sleepSecs 60, TEvent.setFlag false,
         TEvent.signalFull, TEvent.signalEmpty,
         TEvent.signalFull, TEvent.signalEmpty,
         TEvent.signalFull, TEvent.signalEmpty,
         TEvent.signalFull, TEvent.signalEmpty,
         TEvent.signalFull, TEvent.signalEmpty]
  ∧ temporizador_run.count TEvent.signalFull = NUM_CAJEROS + NUM_EMPACADORES
  ∧ temporizador_run.count TEvent.signalEmpty = NUM_CAJEROS + NUM_EMPACADORES
  ∧ temporizador_run.getD 0 (TEvent.setFlag true) = TEvent.sleepSecs DURACION_SEG
  ∧ temporizador_run.getD 1 (TEvent.setFlag true) = TEvent.setFlag false := by
  decide

/-- Combined result of one worker decision point: the buffer, both
semaphores, and whether the worker left its loop. -/
structure WorkerRes where
  buf : BufferState
  semEmpty : Semaforo
  semFull : Semaforo
  exited : Bool
  deriving DecidableEq, Repr

/-- cajero from the return of sem_wait_manual on sem_empty (lines
252-277): re-check simulacion_activa; if cleared, sem_signal_manual on
sem_empty and break (line 255); otherwise the critical section
(lines 258-269) and sem_signal_manual on sem_full (line 276). -/
def cajero_after_wait (activa : Bool) (buf : BufferState) (e f : Semaforo)
    (p : Producto) : WorkerRes :=
  if activa then
    { buf := enqueue buf p, semEmpty := e, semFull := (sem_signal_manual f).1,
      exited := false }
  else
    { buf := buf, semEmpty := (sem_signal_manual e).1, semFull := f,
      exited := true }

/-- empacador from the return of sem_wait_manual on sem_full (lines
313-337): re-check simulacion_activa; if cleared, sem_signal_manual on
sem_full and break (line 316); otherwise the critical section
(lines 319-330) and sem_signal_manual on sem_empty (line 337). -/
def empacador_after_wait (activa : Bool) (buf : BufferState) (e f : Semaforo) :
    WorkerRes :=
  if activa then
    { buf := (dequeue buf).2, semEmpty := (sem_signal_manual e).1, semFull := f,
      exited := false }
  else
    { buf := buf, semEmpty := e, semFull := (sem_signal_manual f).1,
      exited := true }

/-- Claim C7: when a worker returns from its semaphore wait and observes
the stop flag cleared, it signals exactly the semaphore it waited on (a
producer signals sem_empty, a consumer signals sem_full), leaves the
other semaphore and the whole buffer state — array, indices and counters
— untouched, and exits its loop. -/
theorem stop_path_spec (buf : BufferState) (e f : Semaforo) (p : Producto) :
    (cajero_after_wait false buf e f p).buf = buf
  ∧ (cajero_after_wait false buf e f p).semEmpty.value = e.value + 1
  ∧ (cajero_after_wait false buf e f p).semFull = f
  ∧ (cajero_after_wait false buf e f p).exited = true
  ∧ (empacador_after_wait false buf e f).buf = buf
  ∧ (empacador_after_wait false buf e f).semFull.value = f.value + 1
  ∧ (empacador_after_wait false buf e f).semEmpty = e
  ∧ (empacador_after_wait false buf e f).exited = true := by
  refine ⟨?_, ?_, ?_, ?_, ?_, ?_, ?_, ?_⟩ <;>
    simp [cajero_after_wait, empacador_after_wait, sem_signal_value]

/-- Reading any valid position of a list just after setting it there
returns the written element. -/
theorem getD_set_self {α : Type} :
    ∀ (l : List α) (i : Nat) (a d : α), i < l.length →
      (l.set i a).getD i d = a := by
  intro l
  induction l with
  | nil => intro i a d h; simp at h
  | cons x xs ih =>
      intro i a d h
      cases i with
      | zero => rfl
      | succ n => exact ih n a d (by simpa using h)

/-- Claim C8: for a buffer state with valid indices, enqueue writes the
item at index indice_in, advances indice_in to
(indice_in + 1) % BUFFER_SIZE and increments total_producidos by 1;
dequeue reads the item at index indice_out, advances indice_out to
(indice_out + 1) % BUFFER_SIZE and increments total_consumidos by 1; no
other buffer field changes. -/
theorem enqueue_dequeue_spec (b : BufferState) (p : Producto)
    (hin : b.indice_in < BUFFER_SIZE)
    (hlen : b.area_empaque.length = BUFFER_SIZE) :
    (enqueue b p).area_empaque = b.area_empaque.set b.indice_in p
  ∧ (enqueue b p).area_empaque.getD b.indice_in productoCero = p
  ∧ (enqueue b p).indice_in = (b.indice_in + 1) % BUFFER_SIZE
  ∧ (enqueue b p).total_producidos = b.total_producidos + 1
  ∧ (enqueue b p).indice_out = b.indice_out
  ∧ (enqueue b p).total_consumidos = b.total_consumidos
  ∧ (dequeue b).1 = b.area_empaque.getD b.indice_out productoCero
  ∧ (dequeue b).2.indice_out = (b.indice_out + 1) % BUFFER_SIZE
  ∧ (dequeue b).2.total_consumidos = b.total_consumidos + 1
  ∧ (dequeue b).2.area_empaque = b.area_empaque
  ∧ (dequeue b).2.indice_in = b.indice_in
  ∧ (dequeue b).2.total_producidos = b.total_producidos := by
  refine ⟨rfl, ?_, rfl, rfl, rfl, rfl, rfl, rfl, rfl, rfl, rfl, rfl⟩
  exact getD_set_self b.area_empaque b.indice_in p productoCero (by omega)

/-- Witness for enqueue_dequeue_spec at the initial state with a
concrete product. -/
theorem enqueue_dequeue_spec_witness :
    initState.indice_in < BUFFER_SIZE
  ∧ initState.area_empaque.length = BUFFER_SIZE
  ∧ ((enqueue initState productoLeche).area_empaque
        = initState.area_empaque.set initState.indice_in productoLeche
     ∧ (enqueue initState productoLeche).area_empaque.getD initState.indice_in productoCero
        = productoLeche
     ∧ (enqueue initState productoLeche).indice_in = (initState.indice_in + 1) % BUFFER_SIZE
     ∧ (enqueue initState productoLeche).total_producidos = initState.total_producidos + 1
     ∧ (enqueue initState productoLeche).indice_out = initState.indice_out
     ∧ (enqueue initState productoLeche).total_consumidos = initState.total_consumidos
     ∧ (dequeue initState).1 = initState.area_empaque.getD initState.indice_out productoCero
     ∧ (dequeue initState).2.indice_out = (initState.indice_out + 1) % BUFFER_SIZE
     ∧ (dequeue initState).2.total_consumidos = initState.total_consumidos + 1
     ∧ (dequeue initState).2.area_empaque = initState.area_empaque
     ∧ (dequeue initState).2.indice_in = initState.indice_in
     ∧ (dequeue initState).2.total_producidos = initState.total_producidos) :=
  ⟨by decide, by decide,
   enqueue_dequeue_spec initState productoLeche (by decide) (by decide)⟩

/-- Outcome (true = success) of each fallible call in main's setup
(lines 399-423): the pthread_mutex_init and pthread_cond_init calls made
through sem_inicializar for sem_empty and sem_full (lines 401, 403),
pthread_mutex_init for the buffer mutex (line 405), pthread_create for
the timer (line 409), and the malloc plus pthread_create for each cajero
(lines 413-415) and empacador (lines 420-422). -/
structure SetupEnv where
  empty_mutex_ok : Bool
  empty_cond_ok : Bool
  full_mutex_ok : Bool
  full_cond_ok : Bool
  buf_mutex_ok : Bool
  timer_create_ok : Bool
  cajero_malloc_ok : List Bool
  cajero_create_ok : List Bool
  empacador_malloc_ok : List Bool
  empacador_create_ok : List Bool
  deriving DecidableEq, Repr

/-- How main's setup phase ends.  crashNullDeref: a worker-ID malloc
failed and the very next statement (`*id = i + 1`, lines 414 and 421)
dereferences the null result, killing the process before any return
statement and before any diagnostic could be printed.  runsSimulation e:
setup falls through — whichever other setup calls failed — the
simulation is started, and a run that completes normally ends at the
only return statement, `return 0` (line 448), with exit code e = 0. -/
inductive SetupResult where
  | crashNullDeref
  | runsSimulation (exitCodeOnCompletion : Int)
  deriving DecidableEq, Repr

/-- What main's setup phase produces: the failure-diagnostic lines it
prints and how the phase ends. -/
structure MainOutcome where
  diagnostics : List String
  result : SetupResult
  deriving DecidableEq, Repr

/-- main (lines 380-449), restricted to its setup and exit behavior.
The source never tests the result of sem_inicializar (lines 401, 403),
pthread_mutex_init (line 405), pthread_create (lines 409, 415, 422) or
malloc (lines 413, 420): main has no branch on any of these outcomes
and prints no failure diagnostic.  A failed malloc is dereferenced by
the very next statement (lines 414, 421), crashing the process; every
other failure is silently ignored and setup proceeds into the
simulation, whose normal completion reaches `return 0` (line 448). -/
def main (env : SetupEnv) : MainOutcome :=
  { diagnostics := []
    result :=
      if env.cajero_malloc_ok.all (fun x => x)
          && env.empacador_malloc_ok.all (fun x => x) then
        SetupResult.runsSimulation 0
      else
        SetupResult.crashNullDeref }

/-- A run in which the malloc for the first cajero's ID payload fails
while every other setup call succeeds. -/
def envMallocFalla : SetupEnv :=
  { empty_mutex_ok := true, empty_cond_ok := true, full_mutex_ok := true
    full_cond_ok := true, buf_mutex_ok := true, timer_create_ok := true
    cajero_malloc_ok := [false, true, true]
    cajero_create_ok := [true, true, true]
    empacador_malloc_ok := [true, true]
    empacador_create_ok := [true, true] }

/-- Claim C9 is false: with the first cajero's ID allocation failing,
main does not abort before the simulation with a diagnostic line and a
non-zero exit code — it prints nothing and the process crashes
dereferencing the null malloc result at line 414, never reaching a
return statement. -/
theorem main_setup_counterexample :
    envMallocFalla.cajero_malloc_ok = [false, true, true]
  ∧ (main envMallocFalla).result = SetupResult.crashNullDeref
  ∧ (main envMallocFalla).diagnostics = [] := by
  decide

/-- Claim C9 (amended): main performs no setup-failure checking and has
no diagnostic or abort path.  For every combination of failing setup
calls it prints no failure diagnostic; its setup phase ends in the
null-dereference crash exactly when some worker-ID malloc failed, and
under every other failure setup proceeds into the simulation, whose
normal completion returns exit code 0 (the only return statement). -/
theorem main_ignores_setup_failures (env : SetupEnv) :
    (main env).diagnostics = []
  ∧ ((main env).result = SetupResult.crashNullDeref
     ∨ (main env).result = SetupResult.runsSimulation 0)
  ∧ ((main env).result = SetupResult.crashNullDeref
       ↔ (env.cajero_malloc_ok.all (fun x => x)
            && env.empacador_malloc_ok.all (fun x => x)) = false) := by
  cases hc : env.cajero_malloc_ok.all (fun x => x)
      && env.empacador_malloc_ok.all (fun x => x) with
  | true => simp [main, hc]
  | false => simp [main, hc]

end BoundedBuffer
